import Mathlib

/-!
Shallow embedding of the core logic of the `linear-cli-agents` command-line
client: input-token parsing, label-set reconciliation, the concurrent batch
runners of `issues bulk-label` and `issues bulk-update` (sequentialised as a
map over the item list, which is sound for the per-item and count properties
proved below since they are permutation-invariant), the atomic config writer,
and the identifier resolver.

Strings model JavaScript strings; `List String` models JS arrays of strings;
`Option` models nullable values; `Except String` models fallible async calls
(a thrown `Error` is carried as its message string).
-/

namespace LinearCli

/-! ## JS string splitting (model of `String.prototype.split` with a
single-character separator, as used by `flags.ids.split(',')`). -/

/-- Model of JS `split` on a character-list: always returns at least one
piece; an empty input yields `[[]]`, mirroring `"".split(',') == ['']`. -/
def splitChars (sep : Char) : List Char → List (List Char)
  | [] => [[]]
  | c :: cs =>
    if c = sep then [] :: splitChars sep cs
    else
      match splitChars sep cs with
      | [] => [[c]]
      | r :: rs => (c :: r) :: rs

/-- Model of JS `s.split(sep)` for a one-character separator. -/
def jsSplit (sep : Char) (s : String) : List String :=
  (splitChars sep s.data).map (fun l => String.mk l)

/-- Model of JS `s.trim()`: strip leading and trailing whitespace. -/
def jsTrim (s : String) : String :=
  String.mk (((s.data.dropWhile Char.isWhitespace).reverse.dropWhile Char.isWhitespace).reverse)

/-- Model of `s.split(',').map((id) => id.trim())`, the token parsing shared
by `issues bulk-label` (part_001 line 164) and `issues bulk-update`
(bulk-update.ts line 78). -/
def splitTrim (s : String) : List String :=
  (jsSplit ',' s).map jsTrim

/-- Model of `flags[x]?.split(',').map((id) => id.trim()) ?? []` used for the
optional label-list flags (part_001 lines 153-154). -/
def parseFlagList : Option String → List String
  | none => []
  | some s => splitTrim s

/-! ## Label-set reconciliation (part_001 lines 194-199). -/

/-- `addLabelIds.filter((id) => !existingLabelIds.includes(id))`
(part_001 line 195). -/
def labelsToAdd (addLabelIds existingLabelIds : List String) : List String :=
  addLabelIds.filter (fun id => !existingLabelIds.contains id)

/-- `removeLabelIds.filter((id) => existingLabelIds.includes(id))`
(part_001 line 196). -/
def labelsToRemove (removeLabelIds existingLabelIds : List String) : List String :=
  removeLabelIds.filter (fun id => existingLabelIds.contains id)

/-- `[...existingLabelIds.filter((id) => !removeLabelIds.includes(id)), ...labelsToAdd]`
(part_001 line 199): the label list sent to `updateIssue`. -/
def newLabelIds (existingLabelIds addLabelIds removeLabelIds : List String) : List String :=
  existingLabelIds.filter (fun id => !removeLabelIds.contains id) ++
    labelsToAdd addLabelIds existingLabelIds

/-- Model of `[...new Set([...existingLabelIds, ...newLabelIds])]` from
`issues add-labels` (part_002 line 54): insertion-ordered
first-occurrence deduplication of the concatenation. -/
def jsSetInsert (acc : List String) (x : String) : List String :=
  if x ∈ acc then acc else acc ++ [x]

/-- Spread of a JS `Set` built from a list: first occurrences, in order. -/
def jsSetOfList (l : List String) : List String :=
  l.foldl jsSetInsert []

/-- `combinedLabelIds` of `issues add-labels` (part_002 line 54). -/
def combinedLabelIds (existingLabelIds newIds : List String) : List String :=
  jsSetOfList (existingLabelIds ++ newIds)

/-! ## Error model (lib/errors.ts error codes used by the commands). -/

/-- Error codes from `ErrorCodes` in lib/errors.ts that the embedded
commands use. -/
inductive ErrorCode where
  | INVALID_INPUT
  | NOT_FOUND
  | API_ERROR
  | CONFIG_ERROR
deriving DecidableEq, Repr

/-- `CliError` from lib/errors.ts: an error code plus a message. -/
structure CliError where
  code : ErrorCode
  message : String
deriving DecidableEq, Repr

/-! ## The `issues bulk-label` command (part_001 lines 148-252).

Every awaited SDK call is modelled as an `Except String`-valued function: a
thrown JS `Error` is the `.error` case carrying `err.message`. The
`Promise.all` over per-item async closures is sequentialised as `List.map`;
the claims proved below (counts, per-item outcomes) are invariant under the
completion order of the promises. -/

/-- The slice of the SDK client that `issues bulk-label` touches.
`issue` returns whether the fetched issue is non-null; `labels` returns the
label IDs of `issue.labels().nodes`; `updateIssue` takes the new label-ID
list and returns `payload.success` together with the identifier of
`await payload.issue` when present. -/
structure LabelClient where
  resolveIssueId : String → Except String String
  issue : String → Except String Bool
  labels : String → Except String (List String)
  updateIssue : String → List String → Except String (Bool × Option String)

/-- Per-item result record (`LabelResult` interface, part_001 lines 117-124). -/
structure LabelResult where
  identifier : String
  id : String
  success : Bool
  labelsAdded : Option (List String) := none
  labelsRemoved : Option (List String) := none
  error : Option String := none
deriving DecidableEq, Repr

/-- The `try` block of the per-item closure (part_001 lines 176-223): resolve
the token, fetch the issue and its labels, reconcile the label set, send the
update, and build the result record. Any thrown error surfaces as `.error`. -/
def processLabelItemTry (client : LabelClient) (addLabelIds removeLabelIds : List String)
    (identifier : String) : Except String LabelResult := do
  let issueId ← client.resolveIssueId identifier
  let found ← client.issue issueId
  if !found then
    return { identifier := identifier, id := issueId, success := false,
             error := some "Issue not found" }
  let existingLabelIds ← client.labels issueId
  let added := labelsToAdd addLabelIds existingLabelIds
  let removed := labelsToRemove removeLabelIds existingLabelIds
  let finalIds := newLabelIds existingLabelIds addLabelIds removeLabelIds
  let (updSuccess, updIdentifier) ← client.updateIssue issueId finalIds
  if !updSuccess then
    return { identifier := identifier, id := issueId, success := false,
             error := some "Failed to update labels" }
  return { identifier := updIdentifier.getD identifier, id := issueId, success := true,
           labelsAdded := if added.length > 0 then some added else none,
           labelsRemoved := if removed.length > 0 then some removed else none }

/-- One item of the `Promise.all` (part_001 lines 175-231): the `try` body
with the `catch` that converts a thrown error into a failure record with
`id: ''` (part_001 lines 224-231). -/
def processLabelItem (client : LabelClient) (addLabelIds removeLabelIds : List String)
    (identifier : String) : LabelResult :=
  match processLabelItemTry client addLabelIds removeLabelIds identifier with
  | .ok r => r
  | .error msg => { identifier := identifier, id := "", success := false, error := some msg }

/-- The whole `Promise.all` of part_001 lines 174-233, sequentialised. -/
def runBulkLabel (client : LabelClient) (addLabelIds removeLabelIds identifiers : List String) :
    List LabelResult :=
  identifiers.map (processLabelItem client addLabelIds removeLabelIds)

/-- The summary object printed by `issues bulk-label` (part_001 lines 238-247). -/
structure BulkLabelSummary where
  totalRequested : Nat
  successCount : Nat
  failedCount : Nat
  labelsToAdd : Option (List String) := none
  labelsToRemove : Option (List String) := none
  results : List LabelResult
deriving DecidableEq, Repr

/-- The body of `IssuesBulkLabel.run` from flag parsing onward (part_001
lines 153-247): parse the label flags, check the guards, parse the
identifiers, run the batch, and aggregate the summary. A thrown `CliError`
is the `.error` case. -/
def bulkLabelRun (client : LabelClient) (idsFlag : String)
    (addFlag removeFlag : Option String) : Except CliError BulkLabelSummary :=
  let addLabelIds := parseFlagList addFlag
  let removeLabelIds := parseFlagList removeFlag
  if addLabelIds.length == 0 && removeLabelIds.length == 0 then
    .error { code := .INVALID_INPUT,
             message := "No label operations specified. Use --add-labels and/or --remove-labels" }
  else
    let identifiers := splitTrim idsFlag
    if identifiers.length == 0 then
      .error { code := .INVALID_INPUT, message := "No issue IDs provided" }
    else
      let results := runBulkLabel client addLabelIds removeLabelIds identifiers
      .ok { totalRequested := identifiers.length,
            successCount := (results.filter (fun r => r.success)).length,
            failedCount := (results.filter (fun r => !r.success)).length,
            labelsToAdd := if addLabelIds.length > 0 then some addLabelIds else none,
            labelsToRemove := if removeLabelIds.length > 0 then some removeLabelIds else none,
            results := results }

/-! ## The `issues bulk-update` command (bulk-update.ts lines 53-158). -/

/-- The slice of the SDK client that `issues bulk-update` touches. The
update input built from the flags is fixed for the whole batch, so
`updateIssue` is the partially-applied call `client.updateIssue(id, input)`;
it returns `await payload.issue` as `(identifier, id)` when non-null. -/
structure UpdateClient where
  resolveIssueId : String → Except String String
  updateIssue : String → Except String (Option (String × String))

/-- Per-item result record (`UpdateResult` interface, bulk-update.ts
lines 10-15). -/
structure UpdateResult where
  identifier : String
  id : String
  success : Bool
  error : Option String := none
deriving DecidableEq, Repr

/-- Element of `resolvedIds` (bulk-update.ts lines 88-97):
`{identifier, id, error}` where exactly the failed case has `id: null`. -/
structure ResolvedId where
  identifier : String
  id : Option String
  error : Option String
deriving DecidableEq, Repr

/-- One item of the first `Promise.all` (bulk-update.ts lines 89-96):
resolve a token, catching a thrown error into the `error` field. -/
def resolveOne (client : UpdateClient) (identifier : String) : ResolvedId :=
  match client.resolveIssueId identifier with
  | .ok id => { identifier := identifier, id := some id, error := none }
  | .error msg => { identifier := identifier, id := none, error := some msg }

/-- One item of the second `Promise.all` (bulk-update.ts lines 101-138):
skip items that failed to resolve, otherwise send the update and catch any
thrown error at the item boundary. -/
def updateOne (client : UpdateClient) (r : ResolvedId) : UpdateResult :=
  match r.id, r.error with
  | some id, none =>
    match client.updateIssue id with
    | .error msg =>
      { identifier := r.identifier, id := id, success := false, error := some msg }
    | .ok none =>
      { identifier := r.identifier, id := id, success := false,
        error := some "Failed to update issue" }
    | .ok (some (updIdentifier, updId)) =>
      { identifier := updIdentifier, id := updId, success := true }
  | id?, error? =>
    { identifier := r.identifier, id := id?.getD "", success := false,
      error := some (error?.getD "Failed to resolve issue ID") }

/-- Both `Promise.all` phases of `IssuesBulkUpdate.run`, sequentialised. -/
def runBulkUpdate (client : UpdateClient) (identifiers : List String) : List UpdateResult :=
  (identifiers.map (resolveOne client)).map (updateOne client)

/-- The summary object printed by `issues bulk-update` (bulk-update.ts
lines 145-153), without the `updatedFields` echo of the input. -/
structure BulkUpdateSummary where
  totalRequested : Nat
  successCount : Nat
  failedCount : Nat
  results : List UpdateResult
deriving DecidableEq, Repr

/-- The body of `IssuesBulkUpdate.run` from identifier parsing onward
(bulk-update.ts lines 78-153); the update-input construction and its guard
(lines 59-75) precede this slice and do not touch the identifiers. -/
def bulkUpdateRun (client : UpdateClient) (idsFlag : String) :
    Except CliError BulkUpdateSummary :=
  let identifiers := splitTrim idsFlag
  if identifiers.length == 0 then
    .error { code := .INVALID_INPUT, message := "No issue IDs provided" }
  else
    let results := runBulkUpdate client identifiers
    .ok { totalRequested := identifiers.length,
          successCount := (results.filter (fun r => r.success)).length,
          failedCount := (results.filter (fun r => !r.success)).length,
          results := results }

/-! ## Identifier resolver.

The implementation file lib/issue-utils.ts (`resolveIssueId`) is not among
the provided sources; only its callers are. The definitions below are
therefore modelled from the spec (sections 4.1 and 8). -/

/-- Resolution errors of the identifier resolver (spec section 7). -/
inductive ResolutionError where
  | invalidIdentifierFormat
  | notFound
deriving DecidableEq, Repr

/-- Hexadecimal digit test used by the opaque-ID shape check. -/
def isHexDigit (c : Char) : Bool :=
  c.isDigit || ('a' ≤ c && c ≤ 'f') || ('A' ≤ c && c ≤ 'F')

/-- Modelled from the spec: the opaque-ID shape of the Identifier Resolver
(spec 4.1, "a fixed-length hex/UUID-like pattern"; glossary: "fixed shape,
e.g. UUID-like"), whose implementation lib/issue-utils.ts is missing from
the sources: dash-separated hex groups of lengths 8-4-4-4-12. -/
def isOpaqueIdShape (s : String) : Bool :=
  let groups := splitChars '-' s.data
  groups.map List.length == [8, 4, 4, 4, 12] && groups.all (fun g => g.all isHexDigit)

/-- Numeric value of a digit string (most significant digit first). -/
def digitsToNat (ds : List Char) : Nat :=
  ds.foldl (fun acc c => acc * 10 + (c.toNat - 48)) 0

/-- Modelled from the spec: the composite human key of the Identifier
Resolver (spec 4.1, "parse it as PREFIX-NUMBER (case-insensitive prefix,
positive integer suffix)"), whose implementation lib/issue-utils.ts is
missing from the sources. Returns the prefix text and the number when the
token has that shape. -/
def parseCompositeKey (s : String) : Option (String × Nat) :=
  match splitChars '-' s.data with
  | [keyPart, numPart] =>
    if !keyPart.isEmpty && keyPart.all Char.isAlpha &&
        !numPart.isEmpty && numPart.all Char.isDigit && digitsToNat numPart != 0 then
      some (String.mk keyPart, digitsToNat numPart)
    else none
  | _ => none

/-- Modelled from the spec: `resolve` of the Identifier Resolver (spec 4.1),
whose implementation lib/issue-utils.ts is missing from the sources.
`lookup` is the external `lookupByComposite` collaborator. The second
component counts lookup calls issued, so that "no network call" is the
statement that it is zero. -/
def resolve (lookup : String → Nat → Except ResolutionError String) (token : String) :
    Except ResolutionError String × Nat :=
  if isOpaqueIdShape token then
    (Except.ok token, 0)
  else
    match parseCompositeKey token with
    | some (keyPart, num) => (lookup keyPart num, 1)
    | none => (Except.error ResolutionError.invalidIdentifierFormat, 0)

/-! ## Config writer (lib/config.ts lines 47-66).

The filesystem is a map from file names to contents; `writeFileSync`,
`renameSync` and `unlinkSync` act on it, with `renameSync` atomic. Each
fallible operation takes a failure oracle (`none` = succeeds,
`some msg` = throws an error with that message), mirroring the try/catch
structure of `writeConfig`: the outer catch unlinks the temp file inside
an inner try/catch whose errors are ignored, so a failing `unlinkSync`
leaves the temp file behind while the original error is still rethrown as
a CONFIG_ERROR. -/

/-- A filesystem state: file name to contents, `none` when absent. -/
structure FS where
  files : String → Option String

/-- Effect of `writeFileSync(name, content)`. -/
def FS.writeFile (fs : FS) (name content : String) : FS :=
  FS.mk (fun n => if n = name then some content else fs.files n)

/-- Effect of `unlinkSync(name)`. -/
def FS.remove (fs : FS) (name : String) : FS :=
  FS.mk (fun n => if n = name then none else fs.files n)

/-- Effect of the atomic `renameSync(src, dst)`: `dst` receives the contents
of `src` in the same step that `src` disappears. -/
def FS.rename (fs : FS) (src dst : String) : FS :=
  FS.mk (fun n => if n = dst then fs.files src else if n = src then none else fs.files n)

/-- Outcome of `writeConfig`: the final filesystem, the thrown `CliError`
when the write failed, and the sequence of filesystem states traversed
(for the no-partial-write property, every state a crashed reader could
observe). -/
structure ConfigWriteOutcome where
  fs : FS
  thrown : Option CliError
  trace : List FS

/-- `writeConfig` (config.ts lines 47-66): write the serialized config to
`tempFile`, rename it over `configFile`; on failure try to unlink the temp
file, ignoring cleanup errors (config.ts lines 56-60), and throw a
CONFIG_ERROR carrying the original message. `content` is the serialized
config string; `writeRes`, `renameRes` and `unlinkRes` are the failure
oracles of the three fallible filesystem calls. -/
def writeConfigModel (fs : FS) (tempFile configFile content : String)
    (writeRes renameRes unlinkRes : Option String) : ConfigWriteOutcome :=
  match writeRes with
  | some msg =>
    match unlinkRes with
    | some _ =>
      { fs := fs,
        thrown := some { code := ErrorCode.CONFIG_ERROR,
                         message := "Failed to write config: " ++ msg },
        trace := [fs] }
    | none =>
      let cleaned := fs.remove tempFile
      { fs := cleaned,
        thrown := some { code := ErrorCode.CONFIG_ERROR,
                         message := "Failed to write config: " ++ msg },
        trace := [fs, cleaned] }
  | none =>
    let written := fs.writeFile tempFile content
    match renameRes with
    | some msg =>
      match unlinkRes with
      | some _ =>
        { fs := written,
          thrown := some { code := ErrorCode.CONFIG_ERROR,
                           message := "Failed to write config: " ++ msg },
          trace := [fs, written] }
      | none =>
        let cleaned := written.remove tempFile
        { fs := cleaned,
          thrown := some { code := ErrorCode.CONFIG_ERROR,
                           message := "Failed to write config: " ++ msg },
          trace := [fs, written, cleaned] }
    | none =>
      let renamed := written.rename tempFile configFile
      { fs := renamed, thrown := none, trace := [fs, written, renamed] }

/-! ## Shared helper lemmas. -/

/-- Membership in the effective-add list. -/
theorem mem_labelsToAdd {A S : List String} {x : String} :
    x ∈ labelsToAdd A S ↔ x ∈ A ∧ x ∉ S := by
  simp [labelsToAdd, List.mem_filter]

/-- Membership in the effective-remove list. -/
theorem mem_labelsToRemove {R S : List String} {x : String} :
    x ∈ labelsToRemove R S ↔ x ∈ R ∧ x ∈ S := by
  simp [labelsToRemove, List.mem_filter]

/-- Membership in the reconciled label list of part_001 line 199. -/
theorem mem_newLabelIds {S A R : List String} {x : String} :
    x ∈ newLabelIds S A R ↔ (x ∈ S ∧ x ∉ R) ∨ (x ∈ A ∧ x ∉ S) := by
  simp [newLabelIds, labelsToAdd, List.mem_append, List.mem_filter]

/-- Splitting a filtered list by the same predicate partitions its length. -/
theorem length_filter_add_length_filter_not {α : Type} (l : List α) (p : α → Bool) :
    (l.filter p).length + (l.filter (fun a => !p a)).length = l.length := by
  induction l with
  | nil => rfl
  | cons a l ih =>
    by_cases h : p a = true <;> simp [List.filter_cons, h] <;> omega

/-- `splitChars` never returns the empty list of pieces. -/
theorem splitChars_ne_nil (sep : Char) (cs : List Char) : splitChars sep cs ≠ [] := by
  cases cs with
  | nil => simp [splitChars]
  | cons c cs =>
    by_cases h : c = sep
    · simp [splitChars, h]
    · simp only [splitChars, if_neg h]
      cases splitChars sep cs <;> simp

/-- `splitTrim` always yields at least one token. -/
theorem splitTrim_ne_nil (s : String) : splitTrim s ≠ [] := by
  simp only [splitTrim, jsSplit, List.map_map, Ne, List.map_eq_nil_iff]
  exact splitChars_ne_nil ',' s.data

/-- Inserting into a JS `Set` preserves the no-duplicates invariant. -/
theorem jsSetInsert_nodup {acc : List String} (x : String) (h : acc.Nodup) :
    (jsSetInsert acc x).Nodup := by
  by_cases hx : x ∈ acc
  · simpa [jsSetInsert, hx] using h
  · simp only [jsSetInsert, if_neg hx]
    refine List.Nodup.append h (List.nodup_singleton x) ?_
    intro a ha hb
    rw [List.mem_singleton] at hb
    exact hx (hb ▸ ha)

/-- A JS `Set` spread has no duplicates. -/
theorem jsSetOfList_nodup (l : List String) : (jsSetOfList l).Nodup := by
  suffices h : ∀ acc : List String, acc.Nodup → (l.foldl jsSetInsert acc).Nodup from
    h [] List.nodup_nil
  induction l with
  | nil => exact fun acc h => h
  | cons a l ih => exact fun acc h => ih (jsSetInsert acc a) (jsSetInsert_nodup a h)

/-! ## Concrete clients and filesystems used by the witnesses. -/

/-- A demonstration bulk-label client: resolution throws for the token
`BAD`, every issue exists with no labels, updates succeed. -/
def demoLabelClient : LabelClient where
  resolveIssueId := fun t => if t == "BAD" then Except.error "resolve failed" else Except.ok t
  issue := fun _ => Except.ok true
  labels := fun _ => Except.ok []
  updateIssue := fun _ _ => Except.ok (true, none)

/-- A demonstration bulk-update client: resolution throws for `BAD`, the
update call itself throws for the issue id `CRASH`, and otherwise echoes
the id. -/
def demoUpdateClient : UpdateClient where
  resolveIssueId := fun t => if t == "BAD" then Except.error "resolve failed" else Except.ok t
  updateIssue := fun id =>
    if id == "CRASH" then Except.error "update failed" else Except.ok (some (id, id))

/-- An empty demonstration filesystem. -/
def demoFS : FS := FS.mk (fun _ => none)

/-- A demonstration external lookup collaborator for the resolver. -/
def demoLookup : String → Nat → Except ResolutionError String :=
  fun _ _ => Except.error ResolutionError.notFound

/-- The summary `bulkLabelRun demoLabelClient "a,b" (some "L1") none`
evaluates to, spelled out for the witnesses below. -/
def demoLabelSummary : BulkLabelSummary :=
  { totalRequested := 2, successCount := 2, failedCount := 0,
    labelsToAdd := some ["L1"], labelsToRemove := none,
    results := [{ identifier := "a", id := "a", success := true, labelsAdded := some ["L1"] },
                { identifier := "b", id := "b", success := true, labelsAdded := some ["L1"] }] }

/-! ## Claim theorems. -/

/-- C1 counterexample: with current = `[L1]`, toAdd = `[L1]`,
toRemove = `[L1]`, the label `L1` is in both the add and the remove request
yet absent from the list sent to the update call, which is empty rather
than the claimed `(current − toRemove) ∪ toAdd = [L1]`: remove wins over
add for a label that is already present. -/
theorem reconcile_conflict_cex :
    "L1" ∈ (["L1"] : List String) ∧ "L1" ∈ (["L1"] : List String) ∧
    "L1" ∉ newLabelIds ["L1"] ["L1"] ["L1"] ∧ newLabelIds ["L1"] ["L1"] ["L1"] = [] := by
  refine ⟨by decide, by decide, by decide, by decide⟩

/-- C1 (amended): the final label set computed at part_001 line 199 is
`(current − toRemove) ∪ (toAdd − current)` — membership holds iff the label
is currently present and not requested removed, or requested added and not
currently present. Consequently a label in both the add and the remove
request ends up present iff it is not already on the issue: add wins over
remove only for labels not currently present. -/
theorem reconcile_conflict_amended (S A R : List String) (x : String) :
    (x ∈ newLabelIds S A R ↔ (x ∈ S ∧ x ∉ R) ∨ (x ∈ A ∧ x ∉ S)) ∧
    (x ∈ A → x ∈ R → (x ∈ newLabelIds S A R ↔ x ∉ S)) := by
  refine ⟨mem_newLabelIds, fun hA hR => ?_⟩
  rw [mem_newLabelIds]
  constructor
  · rintro (⟨_, hnR⟩ | ⟨_, hnS⟩)
    · exact absurd hR hnR
    · exact hnS
  · exact fun hnS => Or.inr ⟨hA, hnS⟩

/-- Witness for C1 (amended) at current = `[L2]`, toAdd = toRemove = `[L1]`. -/
theorem reconcile_conflict_amended_witness :
    "L1" ∈ newLabelIds ["L2"] ["L1"] ["L1"] ↔ "L1" ∉ (["L2"] : List String) :=
  (reconcile_conflict_amended ["L2"] ["L1"] ["L1"] "L1").2 (by decide) (by decide)

/-- C2 counterexample: with S = A = R = `[L1]` the first reconciliation
yields `[]` and reapplying the same delta yields `[L1]`, so reapplying the
same add/remove request is not a no-op. -/
theorem reconcile_not_idempotent_cex :
    newLabelIds (newLabelIds ["L1"] ["L1"] ["L1"]) ["L1"] ["L1"] ≠
      newLabelIds ["L1"] ["L1"] ["L1"] := by decide

/-- C2 (amended): the reconciliation of part_001 line 199 is idempotent
whenever no label is requested both added and removed; the counterexample
above shows the disjointness hypothesis cannot be dropped. -/
theorem reconcile_idempotent_of_disjoint (S A R : List String) (h : ∀ x ∈ A, x ∉ R) :
    newLabelIds (newLabelIds S A R) A R = newLabelIds S A R := by
  set F := newLabelIds S A R with hF
  have hmem : ∀ x : String, x ∈ F ↔ (x ∈ S ∧ x ∉ R) ∨ (x ∈ A ∧ x ∉ S) := by
    intro x; rw [hF]; exact mem_newLabelIds
  have h1 : F.filter (fun id => !R.contains id) = F := by
    rw [List.filter_eq_self]
    intro a ha
    rcases (hmem a).mp ha with ⟨_, hnR⟩ | ⟨hA, _⟩
    · simpa using hnR
    · simpa using h a hA
  have h2 : labelsToAdd A F = [] := by
    rw [labelsToAdd, List.filter_eq_nil_iff]
    intro a ha
    have haF : a ∈ F := by
      by_cases hS : a ∈ S
      · exact (hmem a).mpr (Or.inl ⟨hS, h a ha⟩)
      · exact (hmem a).mpr (Or.inr ⟨ha, hS⟩)
    simpa using haF
  calc newLabelIds F A R = F.filter (fun id => !R.contains id) ++ labelsToAdd A F := rfl
    _ = F ++ [] := by rw [h1, h2]
    _ = F := List.append_nil F

/-- Witness for C2 (amended) at S = `[L1]`, A = `[L2]`, R = `[L3]`. -/
theorem reconcile_idempotent_witness :
    newLabelIds (newLabelIds ["L1"] ["L2"] ["L3"]) ["L2"] ["L3"] =
      newLabelIds ["L1"] ["L2"] ["L3"] :=
  reconcile_idempotent_of_disjoint ["L1"] ["L2"] ["L3"] (by decide)

/-- C5: the effective-add list computed at part_001 line 195 (reported as
`labelsAdded`) contains exactly the requested labels not already present,
and the effective-remove list of part_001 line 196 (reported as
`labelsRemoved`, and likewise `labelsRemoved` of remove-labels.ts line 81)
contains exactly the requested labels actually present. -/
theorem effective_delta_reporting (A R S : List String) (x : String) :
    (x ∈ labelsToAdd A S ↔ x ∈ A ∧ x ∉ S) ∧
    (x ∈ labelsToRemove R S ↔ x ∈ R ∧ x ∈ S) :=
  ⟨mem_labelsToAdd, mem_labelsToRemove⟩

/-- C7 counterexample: when the user-supplied add list repeats an ID
(`--add-labels X,X`) against an issue with no labels, the list passed to
the update call is `[X, X]`, which contains a duplicate. -/
theorem newLabelIds_duplicates_cex :
    newLabelIds [] ["X", "X"] [] = ["X", "X"] ∧ ¬ (newLabelIds [] ["X", "X"] []).Nodup := by
  refine ⟨by decide, by decide⟩

/-- C7 (amended): the reconciled list of part_001 line 199 has no
duplicates provided the current label set and the user-supplied add list
are themselves duplicate-free (the counterexample shows the add-list
hypothesis cannot be dropped), while the combined list of
`issues add-labels` (part_002 line 54) is unconditionally duplicate-free
thanks to its `new Set` construction. -/
theorem final_label_list_nodup (S A R N : List String) (hS : S.Nodup) (hA : A.Nodup) :
    (newLabelIds S A R).Nodup ∧ (combinedLabelIds S N).Nodup := by
  constructor
  · refine List.Nodup.append (List.Nodup.filter _ hS) (List.Nodup.filter _ hA) ?_
    intro a ha hb
    exact (mem_labelsToAdd.mp hb).2 (List.mem_filter.mp ha).1
  · exact jsSetOfList_nodup _

/-- Witness for C7 (amended) at concrete duplicate-free inputs. -/
theorem final_label_list_nodup_witness :
    (newLabelIds ["L1"] ["L2"] ["L3"]).Nodup ∧ (combinedLabelIds ["L1"] ["L2"]).Nodup :=
  final_label_list_nodup ["L1"] ["L2"] ["L3"] ["L2"] (by decide) (by decide)

/-- C3: both batch runners return exactly one result per input token
(including the empty batch), the success and failure counts partition the
batch, and any summary the commands return satisfies
`successCount + failedCount = totalRequested = length of results`. -/
theorem batch_completeness
    (client : LabelClient) (uclient : UpdateClient) (A R ids : List String)
    (idsFlag : String) (addFlag removeFlag : Option String)
    (ls : BulkLabelSummary) (us : BulkUpdateSummary) :
    (runBulkLabel client A R ids).length = ids.length ∧
    ((runBulkLabel client A R ids).filter (fun r => r.success)).length +
      ((runBulkLabel client A R ids).filter (fun r => !r.success)).length = ids.length ∧
    (runBulkUpdate uclient ids).length = ids.length ∧
    ((runBulkUpdate uclient ids).filter (fun r => r.success)).length +
      ((runBulkUpdate uclient ids).filter (fun r => !r.success)).length = ids.length ∧
    (bulkLabelRun client idsFlag addFlag removeFlag = Except.ok ls →
      ls.successCount + ls.failedCount = ls.totalRequested ∧
      ls.totalRequested = ls.results.length) ∧
    (bulkUpdateRun uclient idsFlag = Except.ok us →
      us.successCount + us.failedCount = us.totalRequested ∧
      us.totalRequested = us.results.length) := by
  refine ⟨by simp [runBulkLabel], ?_, by simp [runBulkUpdate], ?_, ?_, ?_⟩
  · rw [length_filter_add_length_filter_not]
    simp [runBulkLabel]
  · rw [length_filter_add_length_filter_not]
    simp [runBulkUpdate]
  · intro h
    simp only [bulkLabelRun] at h
    split at h
    · exact absurd h (by simp)
    · split at h
      · exact absurd h (by simp)
      · rw [Except.ok.injEq] at h
        subst h
        refine ⟨?_, by simp [runBulkLabel]⟩
        rw [length_filter_add_length_filter_not]
        simp [runBulkLabel]
  · intro h
    simp only [bulkUpdateRun] at h
    split at h
    · exact absurd h (by simp)
    · rw [Except.ok.injEq] at h
      subst h
      refine ⟨?_, by simp [runBulkUpdate]⟩
      rw [length_filter_add_length_filter_not]
      simp [runBulkUpdate]

/-- Witness for C3 at the concrete batch `a,b` of the demonstration
client, whose summary is `demoLabelSummary`. -/
theorem batch_completeness_witness :
    demoLabelSummary.successCount + demoLabelSummary.failedCount =
      demoLabelSummary.totalRequested ∧
    demoLabelSummary.totalRequested = demoLabelSummary.results.length :=
  (batch_completeness demoLabelClient demoUpdateClient [] [] [] "a,b" (some "L1") none
    demoLabelSummary
    { totalRequested := 0, successCount := 0, failedCount := 0, results := [] }).2.2.2.2.1
    (by rfl)

/-- C4: an exception thrown while processing one item of a batch is caught
at the item boundary and becomes a failure result with the error message
for that item alone; every sibling item (before and after it) yields
exactly the result its own unit of work produces, and the batch call
returns a full result list rather than raising. Stated for a thrown
resolution error in `issues bulk-label` and for an update call that throws
in `issues bulk-update`. -/
theorem batch_isolation (client : LabelClient) (uclient : UpdateClient)
    (A R pre post : List String) (t idk msg umsg : String) :
    (processLabelItemTry client A R t = Except.error msg →
      runBulkLabel client A R (pre ++ t :: post) =
        runBulkLabel client A R pre ++
          ({ identifier := t, id := "", success := false, error := some msg } ::
            runBulkLabel client A R post)) ∧
    (uclient.resolveIssueId t = Except.ok idk → uclient.updateIssue idk = Except.error umsg →
      runBulkUpdate uclient (pre ++ t :: post) =
        runBulkUpdate uclient pre ++
          ({ identifier := t, id := idk, success := false, error := some umsg } ::
            runBulkUpdate uclient post)) := by
  constructor
  · intro h
    simp [runBulkLabel, List.map_append, List.map_cons, processLabelItem, h]
  · intro h1 h2
    simp [runBulkUpdate, List.map_append, List.map_cons, resolveOne, updateOne, h1, h2]

/-- Witness for C4: in a three-item batch whose middle token throws, the
two sibling items succeed and only the middle item carries the message. -/
theorem batch_isolation_witness :
    runBulkLabel demoLabelClient [] [] ["a", "BAD", "b"] =
      [{ identifier := "a", id := "a", success := true },
       { identifier := "BAD", id := "", success := false, error := some "resolve failed" },
       { identifier := "b", id := "b", success := true }] ∧
    runBulkUpdate demoUpdateClient ["a", "CRASH", "b"] =
      [{ identifier := "a", id := "a", success := true },
       { identifier := "CRASH", id := "CRASH", success := false, error := some "update failed" },
       { identifier := "b", id := "b", success := true }] := by
  constructor
  · exact ((batch_isolation demoLabelClient demoUpdateClient [] [] ["a"] ["b"]
      "BAD" "" "resolve failed" "").1 (by rfl)).trans (by rfl)
  · exact ((batch_isolation demoLabelClient demoUpdateClient [] [] ["a"] ["b"]
      "CRASH" "CRASH" "" "update failed").2 (by rfl) (by rfl)).trans (by rfl)

/-- C6 counterexample: the ids flag `a,a` produces the batch inputs
`[a, a]` with no deduplication — the summary reports `totalRequested = 2`
and two results while the number of distinct input tokens is 1. -/
theorem input_not_dedup_cex :
    bulkLabelRun demoLabelClient "a,a" (some "L1") none = Except.ok
      { totalRequested := 2, successCount := 2, failedCount := 0,
        labelsToAdd := some ["L1"], labelsToRemove := none,
        results := [{ identifier := "a", id := "a", success := true, labelsAdded := some ["L1"] },
                    { identifier := "a", id := "a", success := true, labelsAdded := some ["L1"] }] } ∧
    ((splitTrim "a,a").dedup).length = 1 ∧ ¬ (2 : Nat) = ((splitTrim "a,a").dedup).length := by
  refine ⟨by rfl, by decide, by decide⟩

/-- C6 (amended): the batch inputs are the split and trimmed tokens of the
raw ids flag, without deduplication, so `totalRequested` and the result
count equal the number of tokens counted with multiplicity. -/
theorem input_tokens_split_trim_only (client : LabelClient) (idsFlag : String)
    (addFlag removeFlag : Option String) (s : BulkLabelSummary)
    (h : bulkLabelRun client idsFlag addFlag removeFlag = Except.ok s) :
    s.totalRequested = (splitTrim idsFlag).length ∧
    s.results.length = (splitTrim idsFlag).length := by
  simp only [bulkLabelRun] at h
  split at h
  · exact absurd h (by simp)
  · split at h
    · exact absurd h (by simp)
    · rw [Except.ok.injEq] at h
      subst h
      exact ⟨rfl, by simp [runBulkLabel]⟩

/-- Witness for C6 (amended) at the ids flag `a,b`. -/
theorem input_tokens_split_trim_only_witness :
    demoLabelSummary.totalRequested = (splitTrim "a,b").length ∧
    demoLabelSummary.results.length = (splitTrim "a,b").length :=
  input_tokens_split_trim_only demoLabelClient "a,b" (some "L1") none demoLabelSummary (by rfl)

/-- C10: splitting any string on a comma yields at least one token (the
empty string splits to one empty token), so the `No issue IDs provided`
branch of both bulk commands is unreachable and every summary they return
has `totalRequested` at least 1. -/
theorem ids_split_nonempty (client : LabelClient) (uclient : UpdateClient)
    (idsFlag : String) (addFlag removeFlag : Option String) :
    1 ≤ (splitTrim idsFlag).length ∧
    bulkLabelRun client idsFlag addFlag removeFlag ≠
      Except.error { code := ErrorCode.INVALID_INPUT, message := "No issue IDs provided" } ∧
    bulkUpdateRun uclient idsFlag ≠
      Except.error { code := ErrorCode.INVALID_INPUT, message := "No issue IDs provided" } ∧
    (∀ s : BulkLabelSummary, bulkLabelRun client idsFlag addFlag removeFlag = Except.ok s →
      1 ≤ s.totalRequested) ∧
    (∀ s : BulkUpdateSummary, bulkUpdateRun uclient idsFlag = Except.ok s →
      1 ≤ s.totalRequested) := by
  have hne := splitTrim_ne_nil idsFlag
  have hlen : 1 ≤ (splitTrim idsFlag).length := by
    have := List.length_pos.mpr hne
    omega
  have hcond : ¬ (((splitTrim idsFlag).length == 0) = true) := by
    simp only [beq_iff_eq]
    omega
  refine ⟨hlen, ?_, ?_, ?_, ?_⟩
  · intro hcontra
    simp only [bulkLabelRun] at hcontra
    rw [if_neg hcond] at hcontra
    split at hcontra
    · rw [Except.error.injEq, CliError.mk.injEq] at hcontra
      exact absurd hcontra.2 (by decide)
    · exact absurd hcontra (by simp)
  · intro hcontra
    simp only [bulkUpdateRun] at hcontra
    rw [if_neg hcond] at hcontra
    exact absurd hcontra (by simp)
  · intro s h
    simp only [bulkLabelRun] at h
    rw [if_neg hcond] at h
    split at h
    · exact absurd h (by simp)
    · rw [Except.ok.injEq] at h
      subst h
      exact hlen
  · intro s h
    simp only [bulkUpdateRun] at h
    rw [if_neg hcond] at h
    rw [Except.ok.injEq] at h
    subst h
    exact hlen

/-- Witness for C10 at the ids flag `a,b` of the demonstration client. -/
theorem ids_split_nonempty_witness :
    1 ≤ (splitTrim "a,b").length ∧ 1 ≤ demoLabelSummary.totalRequested :=
  ⟨(ids_split_nonempty demoLabelClient demoUpdateClient "a,b" (some "L1") none).1,
   (ids_split_nonempty demoLabelClient demoUpdateClient "a,b" (some "L1") none).2.2.2.1
     demoLabelSummary (by rfl)⟩

/-- C8: a token matching the opaque-ID shape is returned unchanged with
zero lookup calls, whatever the external lookup does; a token matching
neither the opaque-ID shape nor the composite PREFIX-NUMBER shape fails
with `invalidIdentifierFormat`, again with zero lookup calls. -/
theorem resolver_fast_path (lookup : String → Nat → Except ResolutionError String)
    (token : String) :
    (isOpaqueIdShape token = true → resolve lookup token = (Except.ok token, 0)) ∧
    (isOpaqueIdShape token = false → parseCompositeKey token = none →
      resolve lookup token = (Except.error ResolutionError.invalidIdentifierFormat, 0)) := by
  constructor
  · intro h
    simp [resolve, h]
  · intro h1 h2
    simp [resolve, h1, h2]

/-- Witness for C8 at a concrete UUID-shaped token and a concrete
malformed token. -/
theorem resolver_fast_path_witness :
    resolve demoLookup "123e4567-e89b-12d3-a456-426614174000" =
      (Except.ok "123e4567-e89b-12d3-a456-426614174000", 0) ∧
    resolve demoLookup "???" = (Except.error ResolutionError.invalidIdentifierFormat, 0) :=
  ⟨(resolver_fast_path demoLookup "123e4567-e89b-12d3-a456-426614174000").1 (by decide),
   (resolver_fast_path demoLookup "???").2 (by decide) (by decide)⟩

/-- C9 counterexample: when the rename fails and the cleanup `unlinkSync`
also fails (its error ignored by config.ts lines 56-60), `writeConfig`
throws as claimed and the config file keeps its prior contents, but the
temp file is NOT cleaned up — it still holds the written contents — so
the claimed unconditional temp-file cleanup is false. -/
theorem writeConfig_cleanup_cex :
    (writeConfigModel demoFS "config.json.tmp.1" "config.json" "abc" none
        (some "rename failed") (some "unlink failed")).thrown ≠ none ∧
    (writeConfigModel demoFS "config.json.tmp.1" "config.json" "abc" none
        (some "rename failed") (some "unlink failed")).fs.files "config.json.tmp.1" =
      some "abc" ∧
    (writeConfigModel demoFS "config.json.tmp.1" "config.json" "abc" none
        (some "rename failed") (some "unlink failed")).fs.files "config.json" = none := by
  refine ⟨by simp [writeConfigModel], by rfl, by rfl⟩

/-- C9 (amended): `writeConfig` writes the serialized config to a temp
file and then renames it over the config file. When no step fails, the
config file holds the new serialized content and the temp file is gone;
when the write or the rename fails, the config file still holds its prior
contents exactly, a CONFIG_ERROR is thrown, and temp-file cleanup is
attempted — the temp file is gone whenever the cleanup unlink itself
succeeds, but may remain when the cleanup also fails, since cleanup errors
are ignored; and in every intermediate filesystem state a reader of the
config file sees either the prior contents or the complete new contents,
never a partial write. -/
theorem writeConfig_atomic (fs : FS) (tempFile configFile content : String)
    (writeRes renameRes unlinkRes : Option String) (hne : tempFile ≠ configFile) :
    ((writeConfigModel fs tempFile configFile content writeRes renameRes unlinkRes).thrown =
        none →
      (writeConfigModel fs tempFile configFile content writeRes renameRes
        unlinkRes).fs.files configFile = some content ∧
      (writeConfigModel fs tempFile configFile content writeRes renameRes
        unlinkRes).fs.files tempFile = none) ∧
    ((writeConfigModel fs tempFile configFile content writeRes renameRes unlinkRes).thrown ≠
        none →
      (writeConfigModel fs tempFile configFile content writeRes renameRes
        unlinkRes).fs.files configFile = fs.files configFile ∧
      (unlinkRes = none →
        (writeConfigModel fs tempFile configFile content writeRes renameRes
          unlinkRes).fs.files tempFile = none) ∧
      ∃ m, (writeConfigModel fs tempFile configFile content writeRes renameRes
        unlinkRes).thrown = some { code := ErrorCode.CONFIG_ERROR, message := m }) ∧
    (∀ s ∈ (writeConfigModel fs tempFile configFile content writeRes renameRes unlinkRes).trace,
      s.files configFile = fs.files configFile ∨ s.files configFile = some content) := by
  have hne' : configFile ≠ tempFile := Ne.symm hne
  cases writeRes with
  | some msg =>
    cases unlinkRes with
    | some u =>
      refine ⟨?_, ?_, ?_⟩
      · intro h
        exact absurd h (by simp [writeConfigModel])
      · intro _
        refine ⟨rfl, ?_, ⟨"Failed to write config: " ++ msg, rfl⟩⟩
        intro hu
        exact absurd hu (by simp)
      · intro s hs
        simp only [writeConfigModel, List.mem_singleton] at hs
        subst hs
        exact Or.inl rfl
    | none =>
      refine ⟨?_, ?_, ?_⟩
      · intro h
        exact absurd h (by simp [writeConfigModel])
      · intro _
        refine ⟨?_, ?_, ⟨"Failed to write config: " ++ msg, rfl⟩⟩
        · simp [writeConfigModel, FS.remove, hne']
        · intro _
          simp [writeConfigModel, FS.remove]
      · intro s hs
        simp only [writeConfigModel, List.mem_cons, List.mem_singleton] at hs
        rcases hs with rfl | rfl | h
        · exact Or.inl rfl
        · exact Or.inl (by simp [FS.remove, hne'])
        · exact absurd h (by simp)
  | none =>
    cases renameRes with
    | some msg =>
      cases unlinkRes with
      | some u =>
        refine ⟨?_, ?_, ?_⟩
        · intro h
          exact absurd h (by simp [writeConfigModel])
        · intro _
          refine ⟨?_, ?_, ⟨"Failed to write config: " ++ msg, rfl⟩⟩
          · simp [writeConfigModel, FS.writeFile, hne']
          · intro hu
            exact absurd hu (by simp)
        · intro s hs
          simp only [writeConfigModel, List.mem_cons, List.mem_singleton] at hs
          rcases hs with rfl | rfl | h
          · exact Or.inl rfl
          · exact Or.inl (by simp [FS.writeFile, hne'])
          · exact absurd h (by simp)
      | none =>
        refine ⟨?_, ?_, ?_⟩
        · intro h
          exact absurd h (by simp [writeConfigModel])
        · intro _
          refine ⟨?_, ?_, ⟨"Failed to write config: " ++ msg, rfl⟩⟩
          · simp [writeConfigModel, FS.remove, FS.writeFile, hne']
          · intro _
            simp [writeConfigModel, FS.remove]
        · intro s hs
          simp only [writeConfigModel, List.mem_cons, List.mem_singleton] at hs
          rcases hs with rfl | rfl | rfl | h
          · exact Or.inl rfl
          · exact Or.inl (by simp [FS.writeFile, hne'])
          · exact Or.inl (by simp [FS.remove, FS.writeFile, hne'])
          · exact absurd h (by simp)
    | none =>
      refine ⟨?_, ?_, ?_⟩
      · intro _
        constructor
        · simp [writeConfigModel, FS.rename, FS.writeFile]
        · simp [writeConfigModel, FS.rename, FS.writeFile, hne]
      · intro h
        exact absurd rfl h
      · intro s hs
        simp only [writeConfigModel, List.mem_cons, List.mem_singleton] at hs
        rcases hs with rfl | rfl | rfl | h
        · exact Or.inl rfl
        · exact Or.inl (by simp [FS.writeFile, hne'])
        · exact Or.inr (by simp [FS.rename, FS.writeFile])
        · exact absurd h (by simp)

/-- Witness for C9 (amended) on the empty filesystem: a clean run installs
the new contents; a run whose temp-file write fails (with the cleanup
unlink succeeding) leaves the config file absent as before and removes
the temp file. -/
theorem writeConfig_atomic_witness :
    (writeConfigModel demoFS "config.json.tmp.1" "config.json" "abc" none none none).fs.files
      "config.json" = some "abc" ∧
    (writeConfigModel demoFS "config.json.tmp.1" "config.json" "abc"
      (some "disk full") none none).fs.files "config.json" = none ∧
    (writeConfigModel demoFS "config.json.tmp.1" "config.json" "abc"
      (some "disk full") none none).fs.files "config.json.tmp.1" = none := by
  refine ⟨?_, ?_, ?_⟩
  · exact ((writeConfig_atomic demoFS "config.json.tmp.1" "config.json" "abc" none none none
      (by decide)).1 rfl).1
  · exact (((writeConfig_atomic demoFS "config.json.tmp.1" "config.json" "abc"
      (some "disk full") none none (by decide)).2.1 (by simp [writeConfigModel])).1).trans rfl
  · exact ((writeConfig_atomic demoFS "config.json.tmp.1" "config.json" "abc"
      (some "disk full") none none (by decide)).2.1 (by simp [writeConfigModel])).2.1 rfl

end LinearCli
